import Mathlib

set_option autoImplicit false

/-!
# hey: run a command, then notify

A shallow embedding of `main.go` (and of the vendored Plivo client it calls)
together with the properties its specification states.

Go values are embedded as follows.

* `error` is the error's message; a nil error is `none`.
* `time.Time` is the number of nanoseconds since the zero `Time`
  (January 1, year 1, 00:00:00 UTC), so the zero value is `0`;
  `time.Duration` is a count of nanoseconds in the `int64` range.
* A nil pointer is `none`; dereferencing it is a panic.  A function that can
  panic returns `Except Panic _`.
* What lives outside the program (the clock, the child process, the template
  engine, JSON encoding, the network) is a field of `World`.  The outbound
  calls a function makes, and the events of a run of `main`, are recorded in
  a trace next to the value.
-/

namespace Hey

/-! ## Data model -/

abbrev Error := String

abbrev Time := Int

abbrev Duration := Int

/-- Smallest `time.Duration`: `-1 << 63` nanoseconds. -/
def minDuration : Duration := -9223372036854775808

/-- Largest `time.Duration`: `1<<63 - 1` nanoseconds. -/
def maxDuration : Duration := 9223372036854775807

/-- Go's `Time.Sub`: the duration `t - u`; when that does not fit a
`Duration` the minimum or maximum duration is returned. -/
def Time.Sub (t u : Time) : Duration :=
  if t - u < minDuration then minDuration
  else if maxDuration < t - u then maxDuration
  else t - u

inductive Panic where
  | nilDereference
  | indexOutOfRange
  | render (msg : String)
deriving DecidableEq, Repr

/-- Value of `os.ProcessState` that the program looks at: the exit status of
the child (`-1` when it did not exit normally). -/
structure ProcessState where
  exitStatus : Int
deriving DecidableEq, Repr

/-- Go's `ProcessState.Success`: the child exited with status 0. -/
def ProcessState.Success (p : ProcessState) : Bool :=
  p.exitStatus == 0

/-- Fields of `exec.Cmd` that the program reads. -/
structure Cmd where
  Args : List String
  ProcessState : Option ProcessState
deriving DecidableEq, Repr

structure Result where
  Cmd : Option Cmd
  Start : Time
  End : Time
  Err : Option Error
deriving DecidableEq, Repr

def Result.Duration (r : Result) : Duration :=
  Time.Sub r.End r.Start

/-- Returns the command with arguments. -/
def Result.Command (r : Result) : Except Panic String :=
  match r.Cmd with
  | none => .error .nilDereference
  | some c => .ok (String.intercalate " " c.Args)

structure Slack where
  URL : String
  Template : String
deriving DecidableEq, Repr

structure Twilio where
  AccountSid : String
  AuthToken : String
  To : String
  From : String
  Template : String
deriving DecidableEq, Repr

structure Plivo where
  AuthId : String
  AuthToken : String
  To : String
  From : String
  Template : String
deriving DecidableEq, Repr

structure Config where
  Plivo : Option Plivo
  Twilio : Option Twilio
  Slack : Option Slack
deriving DecidableEq, Repr

/-- Values of the interface `Sender` that `Config.Senders` can produce. -/
inductive Sender where
  | plivo (p : Plivo)
  | twilio (t : Twilio)
  | slack (s : Slack)
deriving DecidableEq, Repr

inductive Kind where
  | Plivo
  | Twilio
  | Slack
deriving DecidableEq, Repr

def Sender.kind : Sender → Kind
  | .plivo _ => .Plivo
  | .twilio _ => .Twilio
  | .slack _ => .Slack

/-- Whether the section of a variant is present (non-nil) in the configuration. -/
def Config.present (c : Config) : Kind → Bool
  | .Plivo => c.Plivo.isSome
  | .Twilio => c.Twilio.isSome
  | .Slack => c.Slack.isSome

def Config.Senders (c : Config) : List Sender :=
  let senders : List Sender := []
  let senders := match c.Plivo with
    | some p => senders ++ [Sender.plivo p]
    | none => senders
  let senders := match c.Twilio with
    | some t => senders ++ [Sender.twilio t]
    | none => senders
  let senders := match c.Slack with
    | some s => senders ++ [Sender.slack s]
    | none => senders
  senders

/-! ## The outside world -/

structure Request where
  method : String
  url : String
  body : String
  header : List (String × String)
  basicAuth : Option (String × String)
deriving DecidableEq, Repr

structure Response where
  statusCode : Nat
  body : String
deriving DecidableEq, Repr

/-- JSON payload of the Slack webhook. -/
structure Payload where
  Text : String
  IconURL : String
  IconEmoji : String
  Username : String
deriving DecidableEq, Repr

/-- The vendored client's `plivo.Message`. -/
structure Message where
  Src : String
  Dst : String
  Text : String
  Type_ : String
  URL : String
  Method : String
  Log : Bool
deriving DecidableEq, Repr

/-- The vendored client's `plivo.Response`. -/
structure PlivoResponse where
  Msg : String
  MsgUUID : List String
  ApiID : String
  Error : String
  ReqUUID : String
deriving DecidableEq, Repr

/-- The vendored client's `plivo.Client` (its HTTP client is the default one). -/
structure Client where
  AuthID : String
  AuthToken : String
deriving DecidableEq, Repr

/-- What `Cmd.Run` did: the child could not be started (the process state
stays nil), or it was started and waited for (the process state is set; the
error is the one `Wait` returned). -/
inductive RunOutcome where
  | notStarted (err : Error)
  | waited (ps : ProcessState) (err : Option Error)
deriving DecidableEq, Repr

/-- An outbound call to a notification provider. -/
inductive Call where
  | http (req : Request)
  | twilioSMS (accountSid authToken src dst body statusCallback applicationSid : String)
deriving DecidableEq, Repr

structure World where
  /-- The `n`-th reading of `time.Now()`. -/
  now : Nat → Time
  /-- Running the command with the given `Args` with `Cmd.Run`. -/
  runCmd : List String → RunOutcome
  /-- The template engine's `RenderTemplateString`: it has no error result, a
  failure is a panic. -/
  render : String → Result → Except Panic String
  /-- Go's `Time.Format` behind the engine's `time` filter. -/
  formatTime : String → Time → String
  /-- Go's `Duration.String`. -/
  durationString : Duration → String
  /-- Encoding with `json.Marshal` of the webhook payload. -/
  marshalPayload : Payload → Except Error String
  /-- Encoding with `json.Marshal` of a Plivo message. -/
  marshalMessage : Message → Except Error String
  /-- The error `http.NewRequest` reports for a URL, if any. -/
  urlError : String → Option Error
  /-- The HTTP client's `Do`. -/
  httpDo : Request → Except Error Response
  /-- Decoding a response body into a `plivo.Response` with the JSON decoder. -/
  decodeResponse : String → PlivoResponse × Option Error
  /-- The error result of the Twilio client's `SendSMS`. -/
  twilioSendSMS : String → String → String → String → String → String → String → Option Error

/-- A value computed by a call together with what the call did on the way;
when the value is a panic the trace holds what was done before it. -/
structure Outcome (ε α : Type) where
  trace : List ε
  val : Except Panic α

/-- An event of a run of `main`, over senders of type `σ`. -/
inductive Event (σ : Type) where
  | spawn (args : List String)
  | send (s : σ)
  | call (c : Call)
  | log (line : String)
deriving DecidableEq, Repr

/-! ## Senders -/

/-- Go's `http.NewRequest` with a valid method. -/
def newRequest (w : World) (method url body : String) : Except Error Request :=
  match w.urlError url with
  | some err => .error err
  | none => .ok { method := method, url := url, body := body, header := [], basicAuth := none }

/-- Go's `Header.Set`. -/
def Request.setHeader (r : Request) (k v : String) : Request :=
  { r with header := (r.header.filter (fun kv => kv.1 != k)) ++ [(k, v)] }

/-- Go's `Request.SetBasicAuth`. -/
def Request.SetBasicAuth (r : Request) (username password : String) : Request :=
  { r with basicAuth := some (username, password) }

def slackDefaultTemplate : String :=
  "\x7b% if result.Cmd.ProcessState.Success() %\x7d:thumbsup:\x7b% else %\x7d:thumbsdown:\x7b% endif %\x7d Finished `\x7b\x7b result.Command() \x7d\x7d` at \x7b\x7b result.End|time:\"2006/1/_2 15:04:05PM\" \x7d\x7d in \x7b\x7b result.Duration().String() \x7d\x7d"

def twilioDefaultTemplate : String :=
  "Finished `\x7b\x7b result.Command()|truncatechars:76 \x7d\x7d` at \x7b\x7b result.End|time:\"2006/1/_2 15:04:05PM\" \x7d\x7d in \x7b\x7b result.Duration().String() \x7d\x7d"

def plivoDefaultTemplate : String :=
  "Finished `\x7b\x7b result.Command()|truncatechars:76 \x7d\x7d` at \x7b\x7b result.End|time:\"2006/1/_2 15:04:05PM\" \x7d\x7d in \x7b\x7b result.Duration().String() \x7d\x7d"

/-- The local `tmpl` of `Slack.Send`. -/
def Slack.tmpl (s : Slack) : String :=
  if s.Template = "" then slackDefaultTemplate else s.Template

/-- The local `tmpl` of `Twilio.Send`. -/
def Twilio.tmpl (t : Twilio) : String :=
  if t.Template = "" then twilioDefaultTemplate else t.Template

/-- The local `tmpl` of `Plivo.Send`. -/
def Plivo.tmpl (p : Plivo) : String :=
  if p.Template = "" then plivoDefaultTemplate else p.Template

def Slack.Send (w : World) (s : Slack) (res : Result) : Outcome Call (Option Error) :=
  match w.render s.tmpl res with
  | .error p => ⟨[], .error p⟩
  | .ok text =>
    let payload : Payload := { Text := text, IconURL := "", IconEmoji := "", Username := "Hey!" }
    match w.marshalPayload payload with
    | .error err => ⟨[], .ok (some err)⟩
    | .ok jsonPayload =>
      match newRequest w "POST" s.URL jsonPayload with
      | .error err => ⟨[], .ok (some err)⟩
      | .ok req =>
        let req := req.setHeader "Content-Type" "application/json"
        match w.httpDo req with
        | .error _ => ⟨[Call.http req], .ok none⟩
        | .ok _ => ⟨[Call.http req], .ok none⟩

def Twilio.Send (w : World) (t : Twilio) (res : Result) : Outcome Call (Option Error) :=
  match w.render t.tmpl res with
  | .error p => ⟨[], .error p⟩
  | .ok msg =>
    ⟨[Call.twilioSMS t.AccountSid t.AuthToken t.From t.To msg "" ""],
      .ok (w.twilioSendSMS t.AccountSid t.AuthToken t.From t.To msg "" "")⟩

def BaseURL : String := "https://api.plivo.com/v1/"

/-- The vendored client's `send`, at a `Message`. -/
def Client.send (w : World) (c : Client) (url method : String) (i : Message) :
    List Call × Option PlivoResponse × Option Error :=
  match w.marshalMessage i with
  | .error err => ([], none, some err)
  | .ok body =>
    match newRequest w method url body with
    | .error err => ([], none, some err)
    | .ok req =>
      let req := req.SetBasicAuth c.AuthID c.AuthToken
      let req := req.setHeader "Content-Type" "application/json"
      match w.httpDo req with
      | .error err => ([Call.http req], none, some err)
      | .ok resp =>
        let d := w.decodeResponse resp.body
        ([Call.http req], some d.1, d.2)

/-- The vendored client's `Message`. -/
def Client.Message (w : World) (c : Client) (m : Message) :
    List Call × Option PlivoResponse × Option Error :=
  let url := BaseURL ++ "Account/" ++ c.AuthID ++ "/Message/"
  Client.send w c url "POST" m

def Plivo.Send (w : World) (p : Plivo) (res : Result) : Outcome Call (Option Error) :=
  match w.render p.tmpl res with
  | .error e => ⟨[], .error e⟩
  | .ok msg =>
    let m : Message :=
      { Src := p.From, Dst := p.To, Text := msg, Type_ := "", URL := "", Method := "", Log := false }
    let client : Client := { AuthID := p.AuthId, AuthToken := p.AuthToken }
    let r := Client.Message w client m
    ⟨r.1, .ok r.2.2⟩

/-- Dynamic dispatch of `sender.Send(res)`. -/
def Sender.Send (w : World) : Sender → Result → Outcome Call (Option Error)
  | .plivo p, res => Plivo.Send w p res
  | .twilio t, res => Twilio.Send w t res
  | .slack s, res => Slack.Send w s res

/-! ## `run` and `main` -/

/-- Go's `exec.Command`: the command handle before it is run. -/
def execCommand (name : String) (arg : List String) : Cmd :=
  { Args := name :: arg, ProcessState := none }

/-- The part of `run` after the command handle is built: run it, read the clock. -/
def runCommand {σ : Type} (w : World) (start : Time) (cmd : Cmd) : Outcome (Event σ) Result :=
  match w.runCmd cmd.Args with
  | .notStarted err =>
    ⟨[Event.spawn cmd.Args],
      .ok { Cmd := some cmd, Start := start, End := w.now 1, Err := some err }⟩
  | .waited ps err =>
    ⟨[Event.spawn cmd.Args],
      .ok { Cmd := some { cmd with ProcessState := some ps }, Start := start, End := w.now 1,
            Err := err }⟩

/-- The function `run`, given `os.Args`. -/
def run {σ : Type} (w : World) (args : List String) : Outcome (Event σ) Result :=
  let start := w.now 0
  match args with
  | [_] =>
    ⟨[], .ok { Cmd := none, Start := start, End := 0,
               Err := some "You must suplly a command to run" }⟩
  | [_, name] => runCommand w start (execCommand name [])
  | _ :: name :: rest => runCommand w start (execCommand name rest)
  | [] => ⟨[], .error .indexOutOfRange⟩

/-- The first loop of `main`, over any senders: `errs` holds the errors
collected so far. -/
def dispatch {σ : Type} (send : σ → Result → Outcome Call (Option Error)) (res : Result) :
    List σ → List Error → Outcome (Event σ) (List Error)
  | [], errs => ⟨[], .ok errs⟩
  | sender :: rest, errs =>
    let o := send sender res
    match o.val with
    | .error p => ⟨Event.send sender :: o.trace.map Event.call, .error p⟩
    | .ok err =>
      let errs := match err with
        | some e => errs ++ [e]
        | none => errs
      let r := dispatch send res rest errs
      ⟨Event.send sender :: (o.trace.map Event.call ++ r.trace), r.val⟩

/-- The line `log.Printf` is given for an error. -/
def logLine (e : Error) : String :=
  "Error sending notification: " ++ e ++ "\n"

/-- The second loop of `main`. -/
def logErrors {σ : Type} (errs : List Error) : List (Event σ) :=
  errs.map (fun e => Event.log (logLine e))

/-- The value of `res.Cmd.ProcessState.Success()`. -/
def Result.processSuccess (res : Result) : Except Panic Bool :=
  match res.Cmd with
  | none => .error .nilDereference
  | some c =>
    match c.ProcessState with
    | none => .error .nilDereference
    | some ps => .ok ps.Success

/-- The last statement of `main`: the exit status of the program. -/
def exitDecision (errs : List Error) (res : Result) : Except Panic Nat :=
  if errs.length > 0 then .ok 1
  else
    match res.processSuccess with
    | .error p => .error p
    | .ok success => if !success then .ok 1 else .ok 0

/-- The function `main`, given the loaded configuration and `os.Args`: the
events of the run and the exit status, or the panic the run ends in. -/
def main (w : World) (config : Config) (args : List String) : Outcome (Event Sender) Nat :=
  let r := run w args
  match r.val with
  | .error p => ⟨r.trace, .error p⟩
  | .ok res =>
    let d := dispatch (Sender.Send w) res config.Senders []
    match d.val with
    | .error p => ⟨r.trace ++ d.trace, .error p⟩
    | .ok errs => ⟨r.trace ++ d.trace ++ logErrors errs, exitDecision errs res⟩

/-! ## Reading traces and results -/

/-- The senders on which `Send` was invoked, in the order of the invocations. -/
def invoked {σ : Type} (tr : List (Event σ)) : List σ :=
  tr.filterMap (fun e => match e with
    | Event.send s => some s
    | _ => none)

/-- The outbound calls of a trace, in order. -/
def calls {σ : Type} (tr : List (Event σ)) : List Call :=
  tr.filterMap (fun e => match e with
    | Event.call c => some c
    | _ => none)

/-- The lines logged in a trace, in order. -/
def logged {σ : Type} (tr : List (Event σ)) : List String :=
  tr.filterMap (fun e => match e with
    | Event.log l => some l
    | _ => none)

/-- The commands spawned in a trace, in order. -/
def spawned {σ : Type} (tr : List (Event σ)) : List (List String) :=
  tr.filterMap (fun e => match e with
    | Event.spawn a => some a
    | _ => none)

/-- The non-nil error a call of `Send` returned, if it returned one. -/
def errOf (v : Except Panic (Option Error)) : Option Error :=
  match v with
  | .ok err => err
  | .error _ => none

/-- A call of `Send` returned (it did not panic). -/
def Returns (v : Except Panic (Option Error)) : Prop :=
  ∃ err, v = .ok err

/-! ## The template engine, from its specification -/

/-- The effective template of a sender: the local `tmpl` of its `Send`. -/
def Sender.tmpl : Sender → String
  | .plivo p => p.tmpl
  | .twilio t => t.tmpl
  | .slack s => s.tmpl

/-- Modelled from the spec: the template engine is a library that is not part
of the sources.  This is its truncation filter, "limiting a substituted value
to a fixed maximum character count". -/
def truncatechars (n : Nat) (s : String) : String :=
  String.mk (s.data.take n)

/-- Modelled from the spec: the text of an SMS default message around the
command text: the end timestamp formatted with the template's pattern and
the duration rendered as a human string. -/
def smsText (w : World) (commandText : String) (res : Result) : String :=
  "Finished `" ++ commandText ++ "` at " ++ w.formatTime "2006/1/_2 15:04:05PM" res.End
    ++ " in " ++ w.durationString res.Duration

/-- Modelled from the spec: what the template engine (not part of the
sources) renders for the SMS default template, which substitutes the command
line through the truncation filter with maximum 76. -/
def renderSMSDefault (w : World) (res : Result) : Except Panic String :=
  match res.Command with
  | .error p => .error p
  | .ok cmd => .ok (smsText w (truncatechars 76 cmd) res)

/-- Modelled from the spec: what the template engine (not part of the
sources) renders for the webhook default template: a success or failure
glyph chosen by the conditional on `result.Cmd.ProcessState.Success()`, then
the unbounded command line, the end timestamp and the duration. -/
def renderSlackDefault (w : World) (res : Result) : Except Panic String :=
  match res.processSuccess with
  | .error p => .error p
  | .ok success =>
    match res.Command with
    | .error p => .error p
    | .ok cmd =>
      .ok ((if success then ":thumbsup:" else ":thumbsdown:") ++ " Finished `" ++ cmd
        ++ "` at " ++ w.formatTime "2006/1/_2 15:04:05PM" res.End
        ++ " in " ++ w.durationString res.Duration)

/-! ## Concrete worlds and inputs -/

/-- A world in which each reading of the clock is 5ns later, the child exits
with status 0, templates render to `done`, encoding succeeds, every URL is
accepted and every provider answers with success. -/
def quietWorld : World where
  now := fun n => 5 * n
  runCmd := fun _ => RunOutcome.waited { exitStatus := 0 } none
  render := fun _ _ => .ok "done"
  formatTime := fun _ _ => ""
  durationString := fun _ => ""
  marshalPayload := fun p => .ok p.Text
  marshalMessage := fun m => .ok m.Text
  urlError := fun _ => none
  httpDo := fun _ => .ok { statusCode := 200, body := "" }
  decodeResponse := fun _ =>
    ({ Msg := "", MsgUUID := [], ApiID := "", Error := "", ReqUUID := "" }, none)
  twilioSendSMS := fun _ _ _ _ _ _ _ => none

/-- The result of a command that ran from time 0 to time 5 and exited with status 0. -/
def sampleResult : Result :=
  { Cmd := some { Args := ["sleep", "0"], ProcessState := some { exitStatus := 0 } },
    Start := 0, End := 5, Err := none }

/-- Three senders, numbered from 0: the first and the third fail, the second succeeds. -/
def threeSend : Nat → Result → Outcome Call (Option Error)
  | 0, _ => ⟨[], .ok (some "first failed")⟩
  | 1, _ => ⟨[], .ok none⟩
  | _, _ => ⟨[], .ok (some "third failed")⟩

def samplePlivo : Plivo :=
  { AuthId := "id", AuthToken := "token", To := "+15550001", From := "+15550002", Template := "" }

def sampleTwilio : Twilio :=
  { AccountSid := "sid", AuthToken := "token", To := "+15550001", From := "+15550003",
    Template := "" }

/-- A world in which both SMS providers answer with a body that is not JSON,
so that both clients report the same decoding error. -/
def sameErrorWorld : World :=
  { quietWorld with
    decodeResponse := fun _ =>
      ({ Msg := "", MsgUUID := [], ApiID := "", Error := "", ReqUUID := "" },
        some "unexpected end of JSON input")
    twilioSendSMS := fun _ _ _ _ _ _ _ => some "unexpected end of JSON input" }

/-- A configuration with no section. -/
def emptyConfig : Config :=
  { Plivo := none, Twilio := none, Slack := none }

/-- A webhook with a custom template. -/
def sampleSlack : Slack :=
  { URL := "http://127.0.0.1:9/hook", Template := "done" }

/-- A configuration with the webhook section only. -/
def slackOnlyConfig : Config :=
  { Plivo := none, Twilio := none, Slack := some sampleSlack }

/-- A configuration with the two SMS sections. -/
def smsConfig : Config :=
  { Plivo := some samplePlivo, Twilio := some sampleTwilio, Slack := none }

/-- The quiet world with a given behaviour of the HTTP client's `Do`. -/
def worldWithDo (doResult : Except Error Response) : World :=
  { quietWorld with httpDo := fun _ => doResult }

/-- A world in which no HTTP request can be delivered. -/
def unreachableWorld : World :=
  worldWithDo (.error "dial tcp 127.0.0.1:9: connect: connection refused")

/-- A webhook whose URL has no scheme. -/
def schemelessSlack : Slack :=
  { URL := ":hook", Template := "done" }

/-- A configuration with the scheme-less webhook only. -/
def schemelessConfig : Config :=
  { Plivo := none, Twilio := none, Slack := some schemelessSlack }

/-- A world in which `http.NewRequest` rejects the URL without a scheme. -/
def rejectedURLWorld : World :=
  { quietWorld with
    urlError := fun u => if u = ":hook" then some "missing protocol scheme" else none }

/-- A world in which no command can be started. -/
def cannotStartWorld : World :=
  { quietWorld with runCmd := fun _ => RunOutcome.notStarted "executable file not found" }

/-- A world whose clock is read in November 2026: about 6.39e19 ns after the
zero `Time`. -/
def lateWorld : World :=
  { quietWorld with now := fun n => 63929000000000000000 + 5 * n }

/-- The result `run` returns in `lateWorld` when no command is supplied. -/
def lateNoCommand : Result :=
  { Cmd := none, Start := 63929000000000000000, End := 0,
    Err := some "You must suplly a command to run" }

/-- A Plivo section with a malformed custom template. -/
def brokenPlivo : Plivo :=
  { samplePlivo with Template := "\x7b\x7b" }

/-- A configuration with a Plivo section whose template is malformed and a webhook. -/
def brokenTemplateConfig : Config :=
  { Plivo := some brokenPlivo, Twilio := none, Slack := some sampleSlack }

/-- A world whose template engine fails on the malformed template. -/
def brokenTemplateWorld : World :=
  { quietWorld with
    render := fun tmpl _ =>
      if tmpl = "\x7b\x7b" then .error (Panic.render "unexpected EOF") else .ok "done" }

/-- A command line of 200 characters. -/
def longCommand : String :=
  String.mk (List.replicate 200 'a')

/-- The result of running the 200-character command. -/
def longResult : Result :=
  { Cmd := some { Args := [longCommand], ProcessState := some { exitStatus := 0 } },
    Start := 0, End := 5, Err := none }

/-- A world whose template engine renders the SMS default template as specified. -/
def smsEngineWorld : World :=
  { quietWorld with
    render := fun tmpl res =>
      if tmpl = twilioDefaultTemplate then renderSMSDefault quietWorld res else .ok "done" }

/-! ## Lemmas on traces and on the dispatch loop -/

theorem invoked_append {σ : Type} (a b : List (Event σ)) :
    invoked (a ++ b) = invoked a ++ invoked b := by
  simp [invoked, List.filterMap_append]

theorem invoked_map_call {σ : Type} (cs : List Call) :
    invoked (cs.map (Event.call : Call → Event σ)) = [] := by
  induction cs with
  | nil => rfl
  | cons c cs ih => simp [invoked]

theorem invoked_logErrors {σ : Type} (errs : List Error) :
    invoked (logErrors errs : List (Event σ)) = [] := by
  induction errs with
  | nil => rfl
  | cons e es ih => simp [invoked, logErrors]

theorem logged_logErrors {σ : Type} (errs : List Error) :
    logged (logErrors errs : List (Event σ)) = errs.map logLine := by
  induction errs with
  | nil => rfl
  | cons e es ih => simpa [logged, logErrors] using ih

/-- When every sender returns, the loop invokes each of them, in order, and
collects the non-nil results after the errors it started with. -/
theorem dispatch_of_returns {σ : Type} (send : σ → Result → Outcome Call (Option Error))
    (res : Result) (senders : List σ) :
    ∀ errs : List Error, (∀ s ∈ senders, Returns (send s res).val) →
      (dispatch send res senders errs).val
          = .ok (errs ++ senders.filterMap (fun s => errOf (send s res).val)) ∧
        invoked (dispatch send res senders errs).trace = senders := by
  induction senders with
  | nil => intro errs _; simp [dispatch, invoked]
  | cons s rest ih =>
    intro errs h
    obtain ⟨err, herr⟩ := h s (List.mem_cons_self _ _)
    have hrest : ∀ t ∈ rest, Returns (send t res).val :=
      fun t ht => h t (List.mem_cons_of_mem _ ht)
    cases err with
    | none =>
      obtain ⟨h1, h2⟩ := ih errs hrest
      constructor
      · simp [dispatch, herr, errOf, h1]
      · simp only [dispatch, herr]
        show invoked (Event.send s :: _) = _
        rw [show ∀ l : List (Event σ), invoked (Event.send s :: l) = s :: invoked l from
          fun l => by simp [invoked]]
        rw [invoked_append, invoked_map_call, List.nil_append, h2]
    | some e =>
      obtain ⟨h1, h2⟩ := ih (errs ++ [e]) hrest
      constructor
      · simp [dispatch, herr, errOf, h1]
      · simp only [dispatch, herr]
        show invoked (Event.send s :: _) = _
        rw [show ∀ l : List (Event σ), invoked (Event.send s :: l) = s :: invoked l from
          fun l => by simp [invoked]]
        rw [invoked_append, invoked_map_call, List.nil_append, h2]

/-- A panic in a sender aborts the loop: the senders after it are not
invoked and no error list is produced. -/
theorem dispatch_of_panic {σ : Type} (send : σ → Result → Outcome Call (Option Error))
    (res : Result) (pre : List σ) (s : σ) (post : List σ) (p : Panic) :
    ∀ errs : List Error, (∀ t ∈ pre, Returns (send t res).val) →
      (send s res).val = .error p →
      (dispatch send res (pre ++ s :: post) errs).val = .error p ∧
        invoked (dispatch send res (pre ++ s :: post) errs).trace = pre ++ [s] := by
  induction pre with
  | nil =>
    intro errs _ hs
    simp [dispatch, hs, invoked]
  | cons t rest ih =>
    intro errs h hs
    obtain ⟨err, herr⟩ := h t (List.mem_cons_self _ _)
    have hrest : ∀ u ∈ rest, Returns (send u res).val :=
      fun u hu => h u (List.mem_cons_of_mem _ hu)
    cases err with
    | none =>
      obtain ⟨h1, h2⟩ := ih errs hrest hs
      constructor
      · simp [dispatch, herr, h1]
      · simp only [List.cons_append, dispatch, herr]
        rw [show ∀ l : List (Event σ), invoked (Event.send t :: l) = t :: invoked l from
          fun l => by simp [invoked]]
        rw [invoked_append, invoked_map_call, List.nil_append]
        exact congrArg (t :: ·) h2
    | some e =>
      obtain ⟨h1, h2⟩ := ih (errs ++ [e]) hrest hs
      constructor
      · simp [dispatch, herr, h1]
      · simp only [List.cons_append, dispatch, herr]
        rw [show ∀ l : List (Event σ), invoked (Event.send t :: l) = t :: invoked l from
          fun l => by simp [invoked]]
        rw [invoked_append, invoked_map_call, List.nil_append]
        exact congrArg (t :: ·) h2

/-! ## The sender list -/

/-- C1: for every configuration, `Senders()` returns exactly the variants
whose section is present, each once, in the fixed order Plivo, Twilio, Slack:
the result is the list `[Plivo, Twilio, Slack]` restricted to the present
sections, each entry carrying the section's value, and it is empty exactly
when no section is present. -/
theorem senders_present_in_fixed_order (c : Config) :
    c.Senders = c.Plivo.toList.map Sender.plivo ++ c.Twilio.toList.map Sender.twilio
        ++ c.Slack.toList.map Sender.slack ∧
      c.Senders.map Sender.kind = [Kind.Plivo, Kind.Twilio, Kind.Slack].filter c.present ∧
      (c.Senders.map Sender.kind).Nodup ∧
      (c.Senders = [] ↔ c.Plivo = none ∧ c.Twilio = none ∧ c.Slack = none) := by
  obtain ⟨p, t, s⟩ := c
  cases p <;> cases t <;> cases s <;>
    simp [Config.Senders, Config.present, Sender.kind]

/-! ## The dispatch loop -/

/-- C2: the dispatch loop never short-circuits.  For every list of senders
whose `Send` returns and every result, `Send` is invoked exactly once on each
sender, in list order, whatever the earlier senders returned, and the
collected errors are exactly the non-nil results of those calls, in the same
order; there are as many as there are failing senders, and none when every
sender succeeds or the list is empty. -/
theorem dispatch_never_short_circuits {σ : Type}
    (send : σ → Result → Outcome Call (Option Error)) (res : Result) (senders : List σ)
    (h : ∀ s ∈ senders, Returns (send s res).val) :
    invoked (dispatch send res senders []).trace = senders ∧
      (dispatch send res senders []).val
        = .ok (senders.filterMap (fun s => errOf (send s res).val)) ∧
      (senders.filterMap (fun s => errOf (send s res).val)).length
        = senders.countP (fun s => (errOf (send s res).val).isSome) ∧
      ((∀ s ∈ senders, (send s res).val = .ok none) →
        (dispatch send res senders []).val = .ok []) := by
  obtain ⟨h1, h2⟩ := dispatch_of_returns send res senders [] h
  refine ⟨h2, by simpa using h1, List.length_filterMap_eq_countP _ _, ?_⟩
  intro hall
  rw [h1]
  have : senders.filterMap (fun s => errOf (send s res).val) = [] := by
    rw [List.filterMap_eq_nil_iff]
    intro s hs
    rw [hall s hs]
    rfl
  rw [this]
  rfl

/-- Three senders of which the first and the third fail: all three are
invoked, and the two errors are collected, the first's then the third's. -/
theorem dispatch_never_short_circuits_witness :
    (∀ s ∈ [0, 1, 2], Returns (threeSend s sampleResult).val) ∧
      invoked (dispatch threeSend sampleResult [0, 1, 2] []).trace = [0, 1, 2] ∧
      (dispatch threeSend sampleResult [0, 1, 2] []).val
        = .ok ["first failed", "third failed"] ∧
      (dispatch threeSend sampleResult ([] : List Nat) []).val = .ok [] :=
  have h : ∀ s ∈ [0, 1, 2], Returns (threeSend s sampleResult).val := by
    intro s hs
    simp only [List.mem_cons, List.mem_singleton, List.not_mem_nil, or_false] at hs
    rcases hs with rfl | rfl | rfl
    · exact ⟨some "first failed", rfl⟩
    · exact ⟨none, rfl⟩
    · exact ⟨some "third failed", rfl⟩
  ⟨h, (dispatch_never_short_circuits threeSend sampleResult [0, 1, 2] h).1,
    (dispatch_never_short_circuits threeSend sampleResult [0, 1, 2] h).2.1.trans (by rfl),
    (dispatch_never_short_circuits threeSend sampleResult [] (by simp)).2.1⟩

/-! ## The exit status -/

/-- Counterexample to C3 as stated: `sleep 0` is started and waited for and
succeeds, and no configured sender returns an error, yet the program exits
with neither status 0 nor status 1: rendering the malformed Plivo template
panics and `main` ends in that panic. -/
theorem exit_status_policy_counterexample :
    (run brokenTemplateWorld ["hey", "sleep", "0"] : Outcome (Event Sender) Result).val
        = .ok sampleResult ∧
      sampleResult.Cmd
        = some { Args := ["sleep", "0"], ProcessState := some { exitStatus := 0 } } ∧
      ProcessState.Success { exitStatus := 0 } = true ∧
      (¬ ∃ s ∈ Config.Senders brokenTemplateConfig,
          ∃ e, (Sender.Send brokenTemplateWorld s sampleResult).val = .ok (some e)) ∧
      (main brokenTemplateWorld brokenTemplateConfig ["hey", "sleep", "0"]).val ≠ .ok 0 ∧
      (main brokenTemplateWorld brokenTemplateConfig ["hey", "sleep", "0"]).val ≠ .ok 1 ∧
      (main brokenTemplateWorld brokenTemplateConfig ["hey", "sleep", "0"]).val
        = .error (Panic.render "unexpected EOF") := by
  have hmain : (main brokenTemplateWorld brokenTemplateConfig ["hey", "sleep", "0"]).val
      = .error (Panic.render "unexpected EOF") := rfl
  refine ⟨rfl, rfl, rfl, ?_, ?_, ?_, hmain⟩
  · rintro ⟨s, hs, e, he⟩
    have hsenders : Config.Senders brokenTemplateConfig
        = [Sender.plivo brokenPlivo, Sender.slack sampleSlack] := rfl
    rw [hsenders] at hs
    simp only [List.mem_cons, List.mem_singleton, List.not_mem_nil, or_false] at hs
    rcases hs with rfl | rfl
    · have h2 : (Sender.Send brokenTemplateWorld (Sender.plivo brokenPlivo) sampleResult).val
          = .error (Panic.render "unexpected EOF") := rfl
      rw [h2] at he
      cases he
    · have h2 : (Sender.Send brokenTemplateWorld (Sender.slack sampleSlack) sampleResult).val
          = .ok none := rfl
      rw [h2] at he
      cases he
  · rw [hmain]
    intro h
    cases h
  · rw [hmain]
    intro h
    cases h

/-- C3 (amended): for every run in which the child process was started and
waited for and the `Send` of every configured sender returned (none
panicked), the program exits with status 1 if and only if at least one sender
returned an error or the child's process state reports no success, and with
status 0 otherwise; the exit status of the child enters only through
`Success`. -/
theorem exit_status_policy (w : World) (config : Config) (args : List String) (res : Result)
    (c : Cmd) (ps : ProcessState)
    (hrun : (run w args : Outcome (Event Sender) Result).val = .ok res)
    (hcmd : res.Cmd = some c) (hps : c.ProcessState = some ps)
    (hret : ∀ s ∈ config.Senders, Returns (Sender.Send w s res).val) :
    ((main w config args).val = .ok 1 ↔
        ((∃ s ∈ config.Senders, ∃ e, (Sender.Send w s res).val = .ok (some e)) ∨
          ps.Success = false)) ∧
      ((main w config args).val = .ok 0 ↔
        ¬ ((∃ s ∈ config.Senders, ∃ e, (Sender.Send w s res).val = .ok (some e)) ∨
          ps.Success = false)) ∧
      ((main w config args).val = .ok 1 ∨ (main w config args).val = .ok 0) := by
  obtain ⟨h1, _⟩ := dispatch_of_returns (Sender.Send w) res config.Senders [] hret
  have hex : (∃ s ∈ config.Senders, ∃ e, (Sender.Send w s res).val = .ok (some e)) ↔
      config.Senders.filterMap (fun s => errOf (Sender.Send w s res).val) ≠ [] := by
    rw [Ne, List.filterMap_eq_nil_iff]
    constructor
    · rintro ⟨s, hs, e, he⟩ hall
      have := hall s hs
      rw [he] at this
      simp [errOf] at this
    · intro hne
      by_contra hcon
      apply hne
      intro s hs
      obtain ⟨err, herr⟩ := hret s hs
      cases err with
      | none => rw [herr]; rfl
      | some e => exact absurd ⟨s, hs, e, herr⟩ hcon
  have hmain : (main w config args).val
      = exitDecision (config.Senders.filterMap (fun s => errOf (Sender.Send w s res).val)) res := by
    simp only [main, hrun, h1, List.nil_append]
  rw [hmain, hex]
  have hsucc : res.processSuccess = .ok ps.Success := by
    simp [Result.processSuccess, hcmd, hps]
  generalize config.Senders.filterMap (fun s => errOf (Sender.Send w s res).val) = errs
  cases errs with
  | nil => cases hb : ps.Success <;> simp [exitDecision, hsucc, hb]
  | cons e es => simp [exitDecision]

/-- Three runs of `sleep 0`.  With no channel configured the program exits
with status 0 and `Send` is never called; with a webhook that is notified
with success it exits with status 0 after one call of `Send`; with two SMS
senders that both return an error it exits with status 1. -/
theorem exit_status_policy_witness :
    (run quietWorld ["hey", "sleep", "0"] : Outcome (Event Sender) Result).val
        = .ok sampleResult ∧
      (main quietWorld emptyConfig ["hey", "sleep", "0"]).val = .ok 0 ∧
      invoked (main quietWorld emptyConfig ["hey", "sleep", "0"]).trace = [] ∧
      calls (main quietWorld emptyConfig ["hey", "sleep", "0"]).trace = [] ∧
      (∀ s ∈ Config.Senders slackOnlyConfig,
        Returns (Sender.Send quietWorld s sampleResult).val) ∧
      (main quietWorld slackOnlyConfig ["hey", "sleep", "0"]).val = .ok 0 ∧
      invoked (main quietWorld slackOnlyConfig ["hey", "sleep", "0"]).trace
        = [Sender.slack sampleSlack] ∧
      (∀ s ∈ Config.Senders smsConfig,
        Returns (Sender.Send sameErrorWorld s sampleResult).val) ∧
      (main sameErrorWorld smsConfig ["hey", "sleep", "0"]).val = .ok 1 :=
  have hslack : ∀ s ∈ Config.Senders slackOnlyConfig,
      Returns (Sender.Send quietWorld s sampleResult).val := by
    intro s hs
    have hsenders : Config.Senders slackOnlyConfig = [Sender.slack sampleSlack] := rfl
    rw [hsenders] at hs
    simp only [List.mem_singleton] at hs
    subst hs
    exact ⟨none, rfl⟩
  have hsms : ∀ s ∈ Config.Senders smsConfig,
      Returns (Sender.Send sameErrorWorld s sampleResult).val := by
    intro s hs
    have hsenders : Config.Senders smsConfig
        = [Sender.plivo samplePlivo, Sender.twilio sampleTwilio] := rfl
    rw [hsenders] at hs
    simp only [List.mem_cons, List.mem_singleton, List.not_mem_nil, or_false] at hs
    rcases hs with rfl | rfl
    · exact ⟨some "unexpected end of JSON input", rfl⟩
    · exact ⟨some "unexpected end of JSON input", rfl⟩
  have hnone : ¬ ((∃ s ∈ Config.Senders slackOnlyConfig,
      ∃ e, (Sender.Send quietWorld s sampleResult).val = .ok (some e)) ∨
      ProcessState.Success { exitStatus := 0 } = false) := by
    rintro (⟨s, hs, e, he⟩ | h)
    · have hsenders : Config.Senders slackOnlyConfig = [Sender.slack sampleSlack] := rfl
      rw [hsenders] at hs
      simp only [List.mem_singleton] at hs
      subst hs
      have h2 : (Sender.Send quietWorld (Sender.slack sampleSlack) sampleResult).val
          = .ok none := rfl
      rw [h2] at he
      cases he
    · exact absurd h (by decide)
  ⟨rfl,
    (exit_status_policy quietWorld emptyConfig ["hey", "sleep", "0"] sampleResult
      { Args := ["sleep", "0"], ProcessState := some { exitStatus := 0 } } { exitStatus := 0 }
      rfl rfl rfl (by simp [emptyConfig, Config.Senders])).2.1.mpr
      (by simp [emptyConfig, Config.Senders, ProcessState.Success]),
    rfl, rfl, hslack,
    (exit_status_policy quietWorld slackOnlyConfig ["hey", "sleep", "0"] sampleResult
      { Args := ["sleep", "0"], ProcessState := some { exitStatus := 0 } } { exitStatus := 0 }
      rfl rfl rfl hslack).2.1.mpr hnone,
    rfl, hsms,
    (exit_status_policy sameErrorWorld smsConfig ["hey", "sleep", "0"] sampleResult
      { Args := ["sleep", "0"], ProcessState := some { exitStatus := 0 } } { exitStatus := 0 }
      rfl rfl rfl hsms).1.mpr
      (Or.inl ⟨Sender.plivo samplePlivo, List.mem_cons_self _ _,
        "unexpected end of JSON input", rfl⟩)⟩

/-! ## Delivery failures of the webhook -/

/-- C4: `Slack.Send` does not surface a delivery failure.  Whatever the HTTP
client's `Do` answers for the request (a transport error, or a response
with any status), `Send` makes its one POST and returns nil; so it does for a
refused connection and for a response with status 500. -/
theorem slack_send_swallows_delivery_failure :
    (∀ (doResult : Except Error Response) (s : Slack) (res : Result),
        (Slack.Send (worldWithDo doResult) s res).val = .ok none ∧
          (Slack.Send (worldWithDo doResult) s res).trace.length = 1) ∧
      (Slack.Send unreachableWorld sampleSlack sampleResult).val = .ok none ∧
      (Slack.Send (worldWithDo (.ok { statusCode := 500, body := "" })) sampleSlack
        sampleResult).val = .ok none := by
  refine ⟨?_, rfl, rfl⟩
  intro doResult s res
  cases doResult <;> simp [Slack.Send, worldWithDo, quietWorld, newRequest]

/-! ## No command supplied -/

/-- C5: when no command is supplied `run` spawns no process and returns a
result with the error set, the clock's reading as `Start`, and zero `End` and
`Cmd`, and `main` still invokes `Send` on the configured webhook.  But with
one webhook whose delivery fails (the connection is refused) `Send` makes its
POST and returns nil, nothing is logged, and `main` panics on the nil
command handle instead of exiting with status 1.  Only a webhook whose
`Send` returns an error (here the URL is rejected before any POST) gives
exit status 1 and one logged failure. -/
theorem no_command_failing_webhook_panics :
    (∀ (w : World) (arg0 : String),
        (run w [arg0] : Outcome (Event Sender) Result)
          = ⟨[], .ok { Cmd := none, Start := w.now 0, End := 0,
                       Err := some "You must suplly a command to run" }⟩) ∧
      invoked (main unreachableWorld slackOnlyConfig ["hey"]).trace = [Sender.slack sampleSlack] ∧
      (calls (main unreachableWorld slackOnlyConfig ["hey"]).trace).length = 1 ∧
      spawned (main unreachableWorld slackOnlyConfig ["hey"]).trace = [] ∧
      logged (main unreachableWorld slackOnlyConfig ["hey"]).trace = [] ∧
      (main unreachableWorld slackOnlyConfig ["hey"]).val = .error Panic.nilDereference ∧
      (main unreachableWorld slackOnlyConfig ["hey"]).val ≠ .ok 1 ∧
      (main rejectedURLWorld schemelessConfig ["hey"]).val = .ok 1 ∧
      logged (main rejectedURLWorld schemelessConfig ["hey"]).trace
        = ["Error sending notification: missing protocol scheme\n"] ∧
      calls (main rejectedURLWorld schemelessConfig ["hey"]).trace = [] := by
  refine ⟨fun _ _ => rfl, rfl, rfl, rfl, rfl, rfl, ?_, rfl, rfl, rfl⟩
  intro h
  have h2 : (main unreachableWorld slackOnlyConfig ["hey"]).val
      = .error Panic.nilDereference := rfl
  rw [h2] at h
  cases h

/-! ## Identity of the failing notifier -/

/-- C9: the recorded failures and the logged lines do not identify the
notifier.  When the Plivo and the Twilio sender fail with the same error, the
loop records that error twice and the two logged lines are the same line. -/
theorem failures_do_not_identify_sender :
    Config.Senders smsConfig = [Sender.plivo samplePlivo, Sender.twilio sampleTwilio] ∧
      (dispatch (Sender.Send sameErrorWorld) sampleResult (Config.Senders smsConfig) []).val
        = .ok ["unexpected end of JSON input", "unexpected end of JSON input"] ∧
      logged (main sameErrorWorld smsConfig ["hey", "sleep", "0"]).trace
        = ["Error sending notification: unexpected end of JSON input\n",
           "Error sending notification: unexpected end of JSON input\n"] ∧
      (∀ e : Error, logLine e = "Error sending notification: " ++ e ++ "\n") :=
  ⟨rfl, rfl, rfl, fun _ => rfl⟩

/-! ## Nil command handle and nil process state -/

/-- C10: the exit decision and `Command()` dereference a nil command handle
or a nil process state.  With no command supplied and no sender returning an
error, `main` panics whatever the world is, and `Command()` panics on the
result of `run`; for a command that could not be started, `main` panics on
the nil process state. -/
theorem exit_decision_dereferences_nil :
    (∀ (w : World) (arg0 : String),
        (main w emptyConfig [arg0]).val = .error Panic.nilDereference) ∧
      (∀ w : World,
        Result.Command { Cmd := none, Start := w.now 0, End := 0,
                         Err := some "You must suplly a command to run" }
          = .error Panic.nilDereference) ∧
      (run cannotStartWorld ["hey", "no-such-command"] : Outcome (Event Sender) Result).val
        = .ok { Cmd := some { Args := ["no-such-command"], ProcessState := none },
                Start := 0, End := 5, Err := some "executable file not found" } ∧
      (main cannotStartWorld emptyConfig ["hey", "no-such-command"]).val
        = .error Panic.nilDereference ∧
      (main quietWorld slackOnlyConfig ["hey"]).val = .error Panic.nilDereference ∧
      (main cannotStartWorld slackOnlyConfig ["hey", "no-such-command"]).val
        = .error Panic.nilDereference :=
  ⟨fun _ _ => rfl, fun _ => rfl, rfl, rfl, rfl, rfl⟩

/-! ## Timing -/

/-- For a result with a command handle, `run` read the clock before spawning
for `Start` and after the child ended for `End`. -/
theorem run_spawned_times (w : World) (args : List String) (res : Result) (c : Cmd)
    (hrun : (run w args : Outcome (Event Sender) Result).val = .ok res)
    (hcmd : res.Cmd = some c) : res.Start = w.now 0 ∧ res.End = w.now 1 := by
  have key : ∀ cmd : Cmd,
      (runCommand w (w.now 0) cmd : Outcome (Event Sender) Result).val = .ok res →
      res.Start = w.now 0 ∧ res.End = w.now 1 := by
    intro cmd h
    unfold runCommand at h
    cases hr : w.runCmd cmd.Args with
    | notStarted err =>
      rw [hr] at h
      simp only [Except.ok.injEq] at h
      subst h
      exact ⟨rfl, rfl⟩
    | waited ps err =>
      rw [hr] at h
      simp only [Except.ok.injEq] at h
      subst h
      exact ⟨rfl, rfl⟩
  match args, hrun with
  | [], h => simp [run] at h
  | [_], h =>
    simp only [run, Except.ok.injEq] at h
    subst h
    simp at hcmd
  | [_, name], h => exact key _ h
  | _ :: name :: a :: rest, h => exact key _ h

/-- Go's `Time.Sub` is the difference saturated to the range of a duration. -/
theorem Time.Sub_spec (t u : Int) :
    Time.Sub t u = max minDuration (min (t - u) maxDuration) ∧
      (u ≤ t → 0 ≤ Time.Sub t u) ∧
      (minDuration ≤ t - u → t - u ≤ maxDuration → Time.Sub t u = t - u) := by
  unfold Time.Sub minDuration maxDuration Time Duration
  refine ⟨?_, ?_, ?_⟩
  · split_ifs <;> omega
  · intro h
    split_ifs <;> omega
  · intro h1 h2
    split_ifs <;> omega

/-- Counterexample to C8 as stated: with no command supplied in November 2026,
`run` returns a result whose `Duration()` is the minimum duration, which is
not `End - Start`. -/
theorem duration_is_not_difference_counterexample :
    (run lateWorld ["hey"] : Outcome (Event Sender) Result).val = .ok lateNoCommand ∧
      lateNoCommand.Duration = minDuration ∧
      lateNoCommand.Duration ≠ lateNoCommand.End - lateNoCommand.Start := by
  refine ⟨rfl, by decide, by decide⟩

/-- C8 (amended): for every result of `run` for a command that was spawned,
given that the clock read after the child terminates is not earlier than the
clock read before spawning, `End >= Start` holds, `Duration()` is
non-negative, and `Duration()` equals `End - Start` exactly when that is at
most the maximum duration; for every result whatsoever `Duration()` is
`End - Start` saturated to the range of a duration, so it is `End - Start`
whenever that lies in the range. -/
theorem duration_is_saturated_difference (w : World) (args : List String) (res : Result)
    (c : Cmd) (hrun : (run w args : Outcome (Event Sender) Result).val = .ok res)
    (hcmd : res.Cmd = some c) (hclock : w.now 0 ≤ w.now 1) :
    res.Start ≤ res.End ∧ 0 ≤ res.Duration ∧
      (res.End - res.Start ≤ maxDuration → res.Duration = res.End - res.Start) ∧
      (∀ r : Result,
        r.Duration = max minDuration (min (r.End - r.Start) maxDuration) ∧
          (minDuration ≤ r.End - r.Start → r.End - r.Start ≤ maxDuration →
            r.Duration = r.End - r.Start)) := by
  obtain ⟨hs, he⟩ := run_spawned_times w args res c hrun hcmd
  have hle : res.Start ≤ res.End := by rw [hs, he]; exact hclock
  refine ⟨hle, (Time.Sub_spec _ _).2.1 hle, ?_, ?_⟩
  · intro hb
    exact (Time.Sub_spec _ _).2.2 (le_trans (by decide) (Int.sub_nonneg_of_le hle)) hb
  · intro r
    exact ⟨(Time.Sub_spec _ _).1, (Time.Sub_spec _ _).2.2⟩

/-- The command `sleep 0` run from time 0 to time 5: the duration is 5ns. -/
theorem duration_is_saturated_difference_witness :
    (run quietWorld ["hey", "sleep", "0"] : Outcome (Event Sender) Result).val
        = .ok sampleResult ∧
      quietWorld.now 0 ≤ quietWorld.now 1 ∧
      sampleResult.Start ≤ sampleResult.End ∧ sampleResult.Duration = 5 :=
  have h := duration_is_saturated_difference quietWorld ["hey", "sleep", "0"] sampleResult
    { Args := ["sleep", "0"], ProcessState := some { exitStatus := 0 } } rfl rfl (by decide)
  ⟨rfl, by decide, h.1, h.2.2.1 (by decide)⟩

/-! ## Template rendering -/

/-- A sender whose template fails to render panics before any outbound call. -/
theorem send_of_render_failure (w : World) (s : Sender) (res : Result) (p : Panic)
    (hfail : w.render s.tmpl res = .error p) : Sender.Send w s res = ⟨[], .error p⟩ := by
  cases s with
  | plivo x => simp only [Sender.tmpl] at hfail; simp only [Sender.Send, Plivo.Send, hfail]
  | twilio x => simp only [Sender.tmpl] at hfail; simp only [Sender.Send, Twilio.Send, hfail]
  | slack x => simp only [Sender.tmpl] at hfail; simp only [Sender.Send, Slack.Send, hfail]

/-- Counterexample to C6 as stated: with a Plivo section whose custom
template is malformed and a webhook configured, `Send` of the Plivo sender
returns no error (it panics), the loop records nothing, the webhook is never
invoked and `main` ends in the panic. -/
theorem render_failure_not_confined_counterexample :
    Config.Senders brokenTemplateConfig = [Sender.plivo brokenPlivo, Sender.slack sampleSlack] ∧
      (Plivo.Send brokenTemplateWorld brokenPlivo sampleResult).val
        = .error (Panic.render "unexpected EOF") ∧
      (¬ ∃ e, (Plivo.Send brokenTemplateWorld brokenPlivo sampleResult).val = .ok (some e)) ∧
      invoked (main brokenTemplateWorld brokenTemplateConfig ["hey", "sleep", "0"]).trace
        = [Sender.plivo brokenPlivo] ∧
      logged (main brokenTemplateWorld brokenTemplateConfig ["hey", "sleep", "0"]).trace = [] ∧
      (main brokenTemplateWorld brokenTemplateConfig ["hey", "sleep", "0"]).val
        = .error (Panic.render "unexpected EOF") := by
  refine ⟨rfl, rfl, ?_, rfl, rfl, rfl⟩
  rintro ⟨e, he⟩
  have h2 : (Plivo.Send brokenTemplateWorld brokenPlivo sampleResult).val
      = .error (Panic.render "unexpected EOF") := rfl
  rw [h2] at he
  cases he

/-- C6 (amended): a template-render failure is not returned as an error.
For every sender variant and every result, if rendering the effective
template fails, that sender's `Send` panics: it returns no error and makes
no outbound call; the dispatch loop ends in that panic after invoking the
senders up to this one, so it records no error and invokes none of the
remaining senders.  Rendering the default templates against the result of a
started command never fails. -/
theorem render_failure_aborts_dispatch (w : World) (res : Result) (pre : List Sender)
    (s : Sender) (post : List Sender) (p : Panic)
    (hpre : ∀ t ∈ pre, Returns (Sender.Send w t res).val)
    (hfail : w.render s.tmpl res = .error p) :
    Sender.Send w s res = ⟨[], .error p⟩ ∧
      (dispatch (Sender.Send w) res (pre ++ s :: post) []).val = .error p ∧
      invoked (dispatch (Sender.Send w) res (pre ++ s :: post) []).trace = pre ++ [s] ∧
      (∀ (r : Result) (c : Cmd) (ps : ProcessState),
        r.Cmd = some c → c.ProcessState = some ps →
          (∃ m, renderSlackDefault w r = .ok m) ∧ (∃ m, renderSMSDefault w r = .ok m)) := by
  have hs := send_of_render_failure w s res p hfail
  have hval : (Sender.Send w s res).val = .error p := by rw [hs]
  obtain ⟨h1, h2⟩ := dispatch_of_panic (Sender.Send w) res pre s post p [] hpre hval
  refine ⟨hs, h1, h2, ?_⟩
  intro r c ps hc hps
  constructor
  · simp [renderSlackDefault, Result.processSuccess, Result.Command, hc, hps]
  · simp [renderSMSDefault, Result.Command, hc]

/-- The malformed Plivo template before a webhook: the loop ends in the
panic after invoking the Plivo sender only. -/
theorem render_failure_aborts_dispatch_witness :
    brokenTemplateWorld.render (Sender.tmpl (Sender.plivo brokenPlivo)) sampleResult
        = .error (Panic.render "unexpected EOF") ∧
      (dispatch (Sender.Send brokenTemplateWorld) sampleResult
        ([] ++ Sender.plivo brokenPlivo :: [Sender.slack sampleSlack]) []).val
        = .error (Panic.render "unexpected EOF") ∧
      invoked (dispatch (Sender.Send brokenTemplateWorld) sampleResult
        ([] ++ Sender.plivo brokenPlivo :: [Sender.slack sampleSlack]) []).trace
        = [] ++ [Sender.plivo brokenPlivo] :=
  have h := render_failure_aborts_dispatch brokenTemplateWorld sampleResult []
    (Sender.plivo brokenPlivo) [Sender.slack sampleSlack] (Panic.render "unexpected EOF")
    (by simp) rfl
  ⟨rfl, h.2.1, h.2.2.1⟩

/-! ## The SMS default template -/

theorem truncatechars_length (n : Nat) (s : String) : (truncatechars n s).length ≤ n := by
  show (s.data.take n).length ≤ n
  rw [List.length_take]
  exact Nat.min_le_left _ _

theorem truncatechars_of_short (n : Nat) (s : String) (h : s.length ≤ n) :
    truncatechars n s = s := by
  cases s with
  | mk l =>
    have h2 : l.length ≤ n := h
    show String.mk (l.take n) = String.mk l
    rw [List.take_of_length_le h2]

/-- C7: for the two SMS variants, an empty `Template` selects the variant's
default and a non-empty one is used as configured; both defaults are the same
template, which substitutes `result.Command()|truncatechars:76`.  When the
engine renders that template as specified, the message handed to the
provider holds the command line truncated to 76 characters: that command
text is at most 76 characters long and is the command line itself when the
command line is at most 76 characters long. -/
theorem sms_default_template_truncates (w : World) (t : Twilio) (p : Plivo) (res : Result)
    (cmdline : String) (hcmd : res.Command = .ok cmdline)
    (hengine : w.render twilioDefaultTemplate res = renderSMSDefault w res) :
    twilioDefaultTemplate = plivoDefaultTemplate ∧
      twilioDefaultTemplate
        = "Finished `\x7b\x7b " ++ "result.Command()|truncatechars:76"
          ++ " \x7d\x7d` at \x7b\x7b result.End|time:\"2006/1/_2 15:04:05PM\" \x7d\x7d"
          ++ " in \x7b\x7b result.Duration().String() \x7d\x7d" ∧
      (t.Template = "" → t.tmpl = twilioDefaultTemplate) ∧
      (p.Template = "" → p.tmpl = plivoDefaultTemplate) ∧
      (t.Template ≠ "" → t.tmpl = t.Template) ∧
      (p.Template ≠ "" → p.tmpl = p.Template) ∧
      (t.Template = "" →
        (Twilio.Send w t res).trace
          = [Call.twilioSMS t.AccountSid t.AuthToken t.From t.To
              (smsText w (truncatechars 76 cmdline) res) "" ""]) ∧
      (p.Template = "" →
        (Plivo.Send w p res).trace
          = (Client.Message w { AuthID := p.AuthId, AuthToken := p.AuthToken }
              { Src := p.From, Dst := p.To, Text := smsText w (truncatechars 76 cmdline) res,
                Type_ := "", URL := "", Method := "", Log := false }).1) ∧
      (truncatechars 76 cmdline).length ≤ 76 ∧
      (cmdline.length ≤ 76 → truncatechars 76 cmdline = cmdline) := by
  have hr : w.render twilioDefaultTemplate res
      = .ok (smsText w (truncatechars 76 cmdline) res) := by
    rw [hengine]
    simp [renderSMSDefault, hcmd]
  have hsame : twilioDefaultTemplate = plivoDefaultTemplate := rfl
  refine ⟨hsame, rfl, ?_, ?_, ?_, ?_, ?_, ?_, truncatechars_length _ _,
    truncatechars_of_short _ _⟩
  · intro h; simp [Twilio.tmpl, h]
  · intro h; simp [Plivo.tmpl, h]
  · intro h; simp [Twilio.tmpl, h]
  · intro h; simp [Plivo.tmpl, h]
  · intro h
    have ht : t.tmpl = twilioDefaultTemplate := by simp [Twilio.tmpl, h]
    simp only [Twilio.Send, ht, hr]
  · intro h
    have hp : p.tmpl = twilioDefaultTemplate := by simp [Plivo.tmpl, h, hsame]
    simp only [Plivo.Send, hp, hr]

/-- A command line of 200 characters: the command text of the SMS message
is its first 76 characters. -/
theorem sms_default_template_truncates_witness :
    longResult.Command = .ok longCommand ∧
      smsEngineWorld.render twilioDefaultTemplate longResult
        = renderSMSDefault smsEngineWorld longResult ∧
      longCommand.length = 200 ∧
      (truncatechars 76 longCommand).length ≤ 76 ∧
      (Twilio.Send smsEngineWorld sampleTwilio longResult).trace
        = [Call.twilioSMS "sid" "token" "+15550003" "+15550001"
            (smsText smsEngineWorld (truncatechars 76 longCommand) longResult) "" ""] :=
  have h := sms_default_template_truncates smsEngineWorld sampleTwilio samplePlivo longResult
    longCommand rfl rfl
  ⟨rfl, rfl, rfl, h.2.2.2.2.2.2.2.2.1, h.2.2.2.2.2.2.1 rfl⟩

end Hey
